import Mathlib

/-!
Shallow embedding of `capsules/extra/src/nonvolatile_storage_driver.rs`:
the nonvolatile-storage allocator/driver capsule.  Every definition below
mirrors one item of the Rust source; machine integers (`usize`, `u32`) are
modelled as `Nat` (the only board configuration in this repository is the
nrf52840, a 32-bit platform, so `size_of::<usize>() = 4`).  Effects on the
physical transport, the upcall mechanism and the kernel client are recorded
as explicit event lists carried beside the updated driver state.
-/

namespace Nvs

/-- Magic constant written at the start of the userspace region. -/
def MAGIC_HEADER : Nat := 0x2FA7B3

/-- Byte width of the magic header (`size_of::<u32>()`). -/
def MAGIC_HEADER_LEN : Nat := 4

/-- `size_of::<usize>()` on the 32-bit nrf52840 platform of this repository. -/
def USIZE_LEN : Nat := 4

/-- Owner value marking the terminating (sentinel) region header. -/
def TERMINATING_REGION_OWNER : Nat := 0

/-- `size_of::<u32>() + size_of::<usize>()`. -/
def REGION_HEADER_LEN : Nat := 4 + USIZE_LEN

/-- Userspace read/write buffer size. -/
def BUF_LEN : Nat := 512

/-- Buffer large enough for both the magic header and a region header. -/
def HEADER_BUF_LEN : Nat := max REGION_HEADER_LEN MAGIC_HEADER_LEN

/-- The Tock `ErrorCode` enumeration (kernel/src/errorcode.rs). -/
inductive ErrorCode
  | FAIL
  | BUSY
  | ALREADY
  | OFF
  | RESERVE
  | INVAL
  | SIZE
  | CANCEL
  | NOMEM
  | NOSUPPORT
  | NODEVICE
  | UNINSTALLED
  | NOACK
deriving DecidableEq, Repr

/-- Numeric value of an `ErrorCode` (`e as usize`). -/
def ErrorCode.toNat : ErrorCode → Nat
  | .FAIL => 1
  | .BUSY => 2
  | .ALREADY => 3
  | .OFF => 4
  | .RESERVE => 5
  | .INVAL => 6
  | .SIZE => 7
  | .CANCEL => 8
  | .NOMEM => 9
  | .NOSUPPORT => 10
  | .NODEVICE => 11
  | .UNINSTALLED => 12
  | .NOACK => 13

/-- `Result<(), ErrorCode>`. -/
inductive RRes
  | ok
  | err (e : ErrorCode)
deriving DecidableEq, Repr

/-- `kernel::errorcode::into_statuscode`. -/
def into_statuscode : RRes → Nat
  | .ok => 0
  | .err e => e.toNat

/-- A region of nonvolatile memory assigned to an app (absolute offset). -/
structure AppRegion where
  offset : Nat
  length : Nat
deriving DecidableEq, Repr

/-- On-media metadata preceding each app region. -/
structure AppRegionHeader where
  shortid : Nat
  length : Nat
deriving DecidableEq, Repr

/-- `HeaderReadAction`. -/
inductive HeaderReadAction
  | ReadingMagicHeader
  | ReadingRegionHeader (addr : Nat)
deriving DecidableEq, Repr

/-- `HeaderWriteAction`. -/
inductive HeaderWriteAction
  | WritingMagicHeader
  | WritingRegionHeader (processid : Nat) (region : AppRegion)
  | ZeroingRegionHeader (check_for_requests : Bool)
deriving DecidableEq, Repr

/-- `HeaderState`. -/
inductive HeaderState
  | Read (a : HeaderReadAction)
  | Write (a : HeaderWriteAction)
deriving DecidableEq, Repr

/-- `NonvolatileCommand`. -/
inductive NonvolatileCommand
  | UserspaceRead
  | UserspaceWrite
  | HeaderRead (a : HeaderReadAction)
  | HeaderWrite (a : HeaderWriteAction)
  | KernelRead
  | KernelWrite
deriving DecidableEq, Repr

/-- `NonvolatileUser`: the current-owner slot contents. -/
inductive NonvolatileUser
  | App (processid : Nat)
  | HeaderManager (st : HeaderState)
  | Kernel
deriving DecidableEq, Repr

/-- `ShortId`: fixed (reboot-stable) or locally-unique app identity. -/
inductive ShortIdK
  | Fixed (v : Nat)
  | LocallyUnique
deriving DecidableEq, Repr

/-- Per-app grant state (`struct App`). -/
structure App where
  pending_command : Bool
  command : NonvolatileCommand
  offset : Nat
  length : Nat
  has_requested_region : Bool
  region : Option AppRegion
deriving DecidableEq, Repr

/-- One row of the grant table: process id, its `ShortId`, the contents of
its read-allow buffer, the contents of its write-allow buffer, and the
grant state. -/
structure AppEntry where
  pid : Nat
  shortid : ShortIdK
  allow_read : List Nat
  allow_write : List Nat
  app : App
deriving DecidableEq, Repr

/-- The whole `NonvolatileStorage` capsule state. -/
structure NVState where
  apps : List AppEntry
  buffer : Option (List Nat)
  current_user : Option NonvolatileUser
  userspace_start_address : Nat
  userspace_length : Nat
  kernel_start_address : Nat
  kernel_length : Nat
  kernel_client : Bool
  kernel_pending_command : Bool
  kernel_command : NonvolatileCommand
  kernel_buffer : Option (List Nat)
  kernel_readwrite_length : Nat
  kernel_readwrite_address : Nat
  header_buffer : Option (List Nat)
  app_region_size : Nat
  next_unallocated_region_header_address : Option Nat
deriving DecidableEq, Repr

/-- A call issued to the physical storage transport. -/
structure PhysOp where
  isWrite : Bool
  buf : List Nat
  addr : Nat
  len : Nat
deriving DecidableEq, Repr

/-- An upcall scheduled to a process (`schedule_upcall(id, (arg0, 0, 0))`). -/
structure Upcall where
  pid : Nat
  upcallId : Nat
  arg0 : Nat
deriving DecidableEq, Repr

/-- A completion forwarded to the registered kernel client. -/
structure KEvent where
  isWrite : Bool
  buf : List Nat
  len : Nat
deriving DecidableEq, Repr

/-- Result of running one capsule operation: the new state, the physical
operations issued, the upcalls scheduled, the kernel-client completions
delivered, and the return value, all in program order. -/
structure Out (α : Type) where
  st : NVState
  ops : List PhysOp
  ups : List Upcall
  kevs : List KEvent
  ret : α
deriving DecidableEq, Repr

/-- Sequencing of two effectful steps. -/
def Out.andThen (o : Out α) (f : NVState → Out β) : Out β :=
  let o2 := f o.st
  ⟨o2.st, o.ops ++ o2.ops, o.ups ++ o2.ups, o.kevs ++ o2.kevs, o2.ret⟩

/-- Prepend already-scheduled upcalls to the result of a later step. -/
def Out.withUps (o : Out α) (u : List Upcall) : Out α :=
  { o with ups := u ++ o.ups }

/-- Upcall id for read completions (`upcall::READ_DONE`). -/
def upcall.READ_DONE : Nat := 0

/-- Upcall id for write completions (`upcall::WRITE_DONE`). -/
def upcall.WRITE_DONE : Nat := 1

/-- Upcall id for initialization completions (`upcall::INIT_DONE`). -/
def upcall.INIT_DONE : Nat := 2

/-- `u8_slice_to_u32`: little-endian decode via shift-or. -/
def u8_slice_to_u32 (bytes : List Nat) : Nat :=
  bytes.enum.foldl (fun result p => result ||| (p.2 <<< (8 * p.1))) 0

/-- `u8_slice_to_usize`: little-endian decode via shift-or. -/
def u8_slice_to_usize (bytes : List Nat) : Nat :=
  bytes.enum.foldl (fun result p => result ||| (p.2 <<< (8 * p.1))) 0

/-- `u32_to_u8_slice`: little-endian encode of a `u32`. -/
def u32_to_u8_slice (val : Nat) : List Nat :=
  (List.range 4).map (fun i => (val >>> (8 * i)) &&& 0xFF)

/-- `usize_to_u8_slice`: little-endian encode of a `usize`. -/
def usize_to_u8_slice (val : Nat) : List Nat :=
  (List.range USIZE_LEN).map (fun i => (val >>> (8 * i)) &&& 0xFF)

/-- Overwrite the first `data.length` bytes of `buf` with `data`,
keeping the tail (the `buf[0..n].iter_mut()` copy loops). -/
def writeBytes (buf data : List Nat) : List Nat :=
  data ++ buf.drop data.length

/-- `Grant::enter` lookup: the grant row of a process, if it exists. -/
def findApp (s : NVState) (pid : Nat) : Option AppEntry :=
  s.apps.find? (fun e => e.pid == pid)

/-- Apply an update to the grant row of a process. -/
def updateApp (s : NVState) (pid : Nat) (f : AppEntry → AppEntry) : NVState :=
  { s with apps := s.apps.map (fun e => if e.pid == pid then f e else e) }

/-- `check_userspace_access`: relative bounds check against the app region. -/
def check_userspace_access (s : NVState) (offset length : Nat)
    (processid : Option Nat) : RRes :=
  match processid with
  | none => .err .FAIL
  | some processid =>
    match findApp s processid with
    | none => .err .FAIL
    | some e =>
      match e.app.region with
      | some app_region =>
        if offset ≥ app_region.length ∨ length > app_region.length
            ∨ offset + length > app_region.length then
          .err .INVAL
        else
          .ok
      | none => .err .FAIL

/-- `check_header_access`: absolute bounds check against the userspace span. -/
def check_header_access (s : NVState) (offset length : Nat) : RRes :=
  if offset < s.userspace_start_address
      ∨ offset ≥ s.userspace_start_address + s.userspace_length
      ∨ length > s.userspace_length
      ∨ offset + length ≥ s.userspace_start_address + s.userspace_length then
    .err .INVAL
  else
    .ok

/-- `check_kernel_access`: absolute bounds check against the kernel span. -/
def check_kernel_access (s : NVState) (offset length : Nat) : RRes :=
  if offset < s.kernel_start_address
      ∨ offset ≥ s.kernel_start_address + s.kernel_length
      ∨ length > s.kernel_length
      ∨ offset + length > s.kernel_start_address + s.kernel_length then
    .err .INVAL
  else
    .ok

/-- `userspace_call_driver`: take the shared app buffer and issue the
physical operation at `offset + userspace_start_address`. -/
def userspace_call_driver (s : NVState) (command : NonvolatileCommand)
    (offset length : Nat) : Out RRes :=
  let physical_address := offset + s.userspace_start_address
  match s.buffer with
  | none => ⟨s, [], [], [], .err .RESERVE⟩
  | some buffer =>
    let s1 := { s with buffer := none }
    let active_len := min length buffer.length
    match command with
    | .UserspaceRead =>
      ⟨s1, [⟨false, buffer, physical_address, active_len⟩], [], [], .ok⟩
    | .UserspaceWrite =>
      ⟨s1, [⟨true, buffer, physical_address, active_len⟩], [], [], .ok⟩
    | _ => ⟨s1, [], [], [], .err .FAIL⟩

/-- `enqueue_command`: validate, then execute now or queue per caller class. -/
def enqueue_command (s : NVState) (command : NonvolatileCommand)
    (offset length : Nat) (processid : Option Nat) : Out RRes :=
  let check : RRes :=
    match command with
    | .UserspaceRead | .UserspaceWrite =>
      check_userspace_access s offset length processid
    | .HeaderRead _ | .HeaderWrite _ => check_header_access s offset length
    | .KernelRead | .KernelWrite => check_kernel_access s offset length
  match check with
  | .err e => ⟨s, [], [], [], .err e⟩
  | .ok =>
    match command with
    | .UserspaceRead | .UserspaceWrite =>
      match processid with
      | none => ⟨s, [], [], [], .err .FAIL⟩
      | some processid =>
        match findApp s processid with
        | none => ⟨s, [], [], [], .err .FAIL⟩
        | some e =>
          let allow_buf_len :=
            match command with
            | .UserspaceRead => e.allow_read.length
            | .UserspaceWrite => e.allow_write.length
            | _ => 0
          if allow_buf_len = 0 ∨ s.buffer = none then
            ⟨s, [], [], [], .err .RESERVE⟩
          else
            let active_len := min length allow_buf_len
            if s.current_user = none then
              let s1 := { s with current_user := some (.App processid) }
              let s2 :=
                if command == .UserspaceWrite then
                  match s1.buffer with
                  | some kernel_buffer =>
                    let write_len := min active_len kernel_buffer.length
                    { s1 with buffer := some (e.allow_write.take write_len
                          ++ kernel_buffer.drop write_len) }
                  | none => s1
                else s1
              match e.app.region with
              | none => ⟨s2, [], [], [], .err .FAIL⟩
              | some app_region =>
                userspace_call_driver s2 command (app_region.offset + offset)
                  active_len
            else
              if e.app.pending_command then
                ⟨s, [], [], [], .err .NOMEM⟩
              else
                let s1 := updateApp s processid (fun e2 =>
                  { e2 with app := { e2.app with
                      pending_command := true, command := command,
                      offset := offset, length := active_len } })
                ⟨s1, [], [], [], .ok⟩
    | .HeaderRead _ | .HeaderWrite _ =>
      match s.header_buffer with
      | none => ⟨s, [], [], [], .err .NOMEM⟩
      | some header_buffer =>
        let s1 := { s with header_buffer := none }
        let active_len := min length header_buffer.length
        if s1.current_user = none then
          match command with
          | .HeaderRead action =>
            ⟨{ s1 with current_user := some (.HeaderManager (.Read action)) },
              [⟨false, header_buffer, offset, active_len⟩], [], [], .ok⟩
          | .HeaderWrite action =>
            ⟨{ s1 with current_user := some (.HeaderManager (.Write action)) },
              [⟨true, header_buffer, offset, active_len⟩], [], [], .ok⟩
          | _ => ⟨s1, [], [], [], .err .FAIL⟩
        else
          ⟨s1, [], [], [], .err .BUSY⟩
    | .KernelRead | .KernelWrite =>
      match s.kernel_buffer with
      | none => ⟨s, [], [], [], .err .NOMEM⟩
      | some kernel_buffer =>
        let s1 := { s with kernel_buffer := none }
        let active_len := min length kernel_buffer.length
        if s1.current_user = none then
          let s2 := { s1 with current_user := some .Kernel }
          match command with
          | .KernelRead =>
            ⟨s2, [⟨false, kernel_buffer, offset, active_len⟩], [], [], .ok⟩
          | .KernelWrite =>
            ⟨s2, [⟨true, kernel_buffer, offset, active_len⟩], [], [], .ok⟩
          | _ => ⟨s2, [], [], [], .err .FAIL⟩
        else
          if s1.kernel_pending_command then
            ⟨s1, [], [], [], .err .NOMEM⟩
          else
            ⟨{ s1 with
                kernel_pending_command := true
                kernel_command := command
                kernel_readwrite_length := active_len
                kernel_readwrite_address := offset
                kernel_buffer := some kernel_buffer }, [], [], [], .ok⟩

/-- `read_region_header`: enqueue a header read at an absolute address. -/
def read_region_header (s : NVState) (region_header_address : Nat) : Out RRes :=
  enqueue_command s
    (.HeaderRead (.ReadingRegionHeader region_header_address))
    region_header_address REGION_HEADER_LEN none

/-- `zero_out_region_header`: zero the header buffer and enqueue the write. -/
def zero_out_region_header (s : NVState) (region_header_address : Nat)
    (check_for_requests : Bool) : Out RRes :=
  match s.header_buffer with
  | none => ⟨s, [], [], [], .err .NOMEM⟩
  | some buf =>
    let s1 := { s with header_buffer := some (writeBytes buf
        (List.replicate REGION_HEADER_LEN 0)) }
    enqueue_command s1
      (.HeaderWrite (.ZeroingRegionHeader check_for_requests))
      region_header_address REGION_HEADER_LEN none

/-- `write_region_header`: encode the header into the header buffer and
enqueue the write of the new region header. -/
def write_region_header (s : NVState) (processid : Nat)
    (region_header : AppRegionHeader) (region_header_address : Nat) : Out RRes :=
  let owner_slice := u32_to_u8_slice region_header.shortid
  let length_slice := usize_to_u8_slice region_header.length
  match s.header_buffer with
  | none => ⟨s, [], [], [], .err .NOMEM⟩
  | some buf =>
    let s1 := { s with header_buffer := some (writeBytes buf
        (owner_slice ++ length_slice)) }
    let region : AppRegion :=
      ⟨region_header_address + REGION_HEADER_LEN, region_header.length⟩
    enqueue_command s1
      (.HeaderWrite (.WritingRegionHeader processid region))
      region_header_address (owner_slice.length + length_slice.length) none

/-- `write_magic_header`. -/
def write_magic_header (s : NVState) : Out RRes :=
  let magic_header_slice := u32_to_u8_slice MAGIC_HEADER
  match s.header_buffer with
  | none => ⟨s, [], [], [], .err .NOMEM⟩
  | some buf =>
    let s1 := { s with header_buffer := some (writeBytes buf magic_header_slice) }
    enqueue_command s1 (.HeaderWrite .WritingMagicHeader)
      s1.userspace_start_address magic_header_slice.length none

/-- `check_magic_header`. -/
def check_magic_header (s : NVState) : Out RRes :=
  enqueue_command s (.HeaderRead .ReadingMagicHeader)
    s.userspace_start_address MAGIC_HEADER_LEN none

/-- `init`: capsule-level initialization. -/
def init (s : NVState) : Out RRes :=
  check_magic_header s

/-- `find_app_to_allocate_region`: first app (in table order) that requested
a region and has none assigned. -/
def find_app_to_allocate_region (s : NVState) : Option Nat :=
  (s.apps.find? (fun e => e.app.has_requested_region && e.app.region.isNone)).map
    (fun e => e.pid)

/-- `allocate_app_region`: write a new region header at the frontier for a
requesting app.  `short_app_id` is read from the app table row. -/
def allocate_app_region (s : NVState) (processid : Nat) : Out RRes :=
  match s.next_unallocated_region_header_address with
  | none => ⟨s, [], [], [], .err .FAIL⟩
  | some new_header_addr =>
    match findApp s processid with
    | none => ⟨s, [], [], [], .err .FAIL⟩
    | some e =>
      match e.shortid with
      | .LocallyUnique => ⟨s, [], [], [], .err .FAIL⟩
      | .Fixed shortid =>
        if e.app.has_requested_region && e.app.region.isNone then
          let region : AppRegion :=
            ⟨new_header_addr + REGION_HEADER_LEN, s.app_region_size⟩
          if region.offset > s.userspace_start_address + s.userspace_length
              ∨ region.offset + region.length
                > s.userspace_start_address + s.userspace_length then
            ⟨s, [], [], [], .err .FAIL⟩
          else
            write_region_header s processid ⟨shortid, region.length⟩
              new_header_addr
        else
          ⟨s, [], [], [], .ok⟩

/-- `header_read_done`: continuation run when a header read completes. -/
def header_read_done (s : NVState) (action : HeaderReadAction) : Out RRes :=
  match action with
  | .ReadingMagicHeader =>
    match s.header_buffer with
    | none => ⟨s, [], [], [], .err .NOMEM⟩
    | some buffer =>
      let magic_header := u8_slice_to_u32 (buffer.take MAGIC_HEADER_LEN)
      if magic_header ≠ MAGIC_HEADER then
        write_magic_header s
      else
        ⟨s, [], [], [], .ok⟩
  | .ReadingRegionHeader region_header_address =>
    match s.header_buffer with
    | none => ⟨s, [], [], [], .err .NOMEM⟩
    | some buffer =>
      let header_slice := buffer.take REGION_HEADER_LEN
      let owner := u8_slice_to_u32 (header_slice.take 4)
      let region_length :=
        u8_slice_to_usize ((header_slice.drop 4).take USIZE_LEN)
      let header : AppRegionHeader := ⟨owner, region_length⟩
      if header.shortid = TERMINATING_REGION_OWNER then
        let s1 := { s with next_unallocated_region_header_address := some region_header_address }
        match find_app_to_allocate_region s1 with
        | some processid => allocate_app_region s1 processid
        | none => ⟨s1, [], [], [], .ok⟩
      else
        if header.shortid = 0 then
          -- NonZeroU32::new fails (unreachable in this branch)
          ⟨s, [], [], [], .err .FAIL⟩
        else
          let next_header_address :=
            region_header_address + REGION_HEADER_LEN + header.length
          match s.apps.find? (fun e => e.shortid == ShortIdK.Fixed header.shortid) with
          | some e =>
            if e.app.has_requested_region && e.app.region.isNone then
              let new_region : AppRegion :=
                ⟨region_header_address + REGION_HEADER_LEN, header.length⟩
              let s1 := updateApp s e.pid (fun e2 =>
                { e2 with app := { e2.app with region := some new_region } })
              Out.withUps (read_region_header s1 next_header_address)
                [⟨e.pid, upcall.INIT_DONE, 0⟩]
            else
              read_region_header s next_header_address
          | none =>
            read_region_header s next_header_address

/-- `header_write_done`: continuation run when a header write completes. -/
def header_write_done (s : NVState) (action : HeaderWriteAction) : Out RRes :=
  match action with
  | .WritingMagicHeader =>
    let first_header_address := s.userspace_start_address + MAGIC_HEADER_LEN
    zero_out_region_header s first_header_address false
  | .WritingRegionHeader processid region =>
    match findApp s processid with
    | none => ⟨s, [], [], [], .err .FAIL⟩
    | some _ =>
      let s1 := updateApp s processid (fun e =>
        { e with app := { e.app with region := some region } })
      match s1.next_unallocated_region_header_address with
      | none => ⟨s1, [], [], [], .err .FAIL⟩
      | some next_header_addr =>
        let next_header_address :=
          next_header_addr + REGION_HEADER_LEN + s1.app_region_size
        let s2 := { s1 with next_unallocated_region_header_address := some next_header_address }
        let o := zero_out_region_header s2 next_header_address true
        match o.ret with
        | .err e => { o with ret := .err e }
        | .ok => { o with ups := o.ups ++ [⟨processid, upcall.INIT_DONE, 0⟩] }
  | .ZeroingRegionHeader check_for_requests =>
    if check_for_requests then
      match find_app_to_allocate_region s with
      | some processid => allocate_app_region s processid
      | none => ⟨s, [], [], [], .ok⟩
    else
      ⟨s, [], [], [], .ok⟩

/-- The per-app half of `check_queue`: scan the given pids in table order
and start the first pending request that the driver accepts. -/
def check_queue_apps (s : NVState) : List Nat → Out Unit
  | [] => ⟨s, [], [], [], ()⟩
  | pid :: rest =>
    match findApp s pid with
    | none => check_queue_apps s rest
    | some e =>
      if e.app.pending_command then
        let s1 := updateApp s pid (fun e2 =>
          { e2 with app := { e2.app with pending_command := false } })
        let s2 := { s1 with current_user := some (.App pid) }
        let o := userspace_call_driver s2 e.app.command e.app.offset e.app.length
        match o.ret with
        | .ok => ⟨o.st, o.ops, o.ups, o.kevs, ()⟩
        | .err _ =>
          let o2 := check_queue_apps o.st rest
          ⟨o2.st, o.ops ++ o2.ops, o.ups ++ o2.ups, o.kevs ++ o2.kevs, ()⟩
      else
        check_queue_apps s rest

/-- `check_queue`: after a completion, start the queued kernel request if
any, else the first queued app request in table order. -/
def check_queue (s : NVState) : Out Unit :=
  if s.kernel_pending_command then
    match s.kernel_buffer with
    | none => ⟨s, [], [], [], ()⟩
    | some kernel_buffer =>
      let s1 := { s with
          kernel_buffer := none
          kernel_pending_command := false
          current_user := some .Kernel }
      match s1.kernel_command with
      | .KernelRead =>
        ⟨s1, [⟨false, kernel_buffer, s1.kernel_readwrite_address,
            s1.kernel_readwrite_length⟩], [], [], ()⟩
      | .KernelWrite =>
        ⟨s1, [⟨true, kernel_buffer, s1.kernel_readwrite_address,
            s1.kernel_readwrite_length⟩], [], [], ()⟩
      | _ => ⟨s1, [], [], [], ()⟩
  else
    check_queue_apps s (s.apps.map (fun e => e.pid))

/-- `read_done`: completion callback from the physical transport. -/
def read_done (s : NVState) (buffer : List Nat) (length : Nat) : Out Unit :=
  let o : Out Unit :=
    match s.current_user with
    | none => ⟨s, [], [], [], ()⟩
    | some user =>
      let s1 := { s with current_user := none }
      match user with
      | .Kernel =>
        if s1.kernel_client then
          ⟨s1, [], [], [⟨false, buffer, length⟩], ()⟩
        else
          ⟨s1, [], [], [], ()⟩
      | .HeaderManager state =>
        let s2 := { s1 with header_buffer := some buffer }
        match state with
        | .Read action =>
          let o1 := header_read_done s2 action
          ⟨o1.st, o1.ops, o1.ups, o1.kevs, ()⟩
        | .Write _ => ⟨s2, [], [], [], ()⟩
      | .App processid =>
        match findApp s1 processid with
        | none => ⟨s1, [], [], [], ()⟩
        | some e =>
          let read_len := min e.allow_read.length length
          let s2 := updateApp s1 processid (fun e2 =>
            { e2 with allow_read := buffer.take read_len
                ++ e2.allow_read.drop read_len })
          let s3 := { s2 with buffer := some buffer }
          ⟨s3, [], [⟨processid, upcall.READ_DONE, length⟩], [], ()⟩
  Out.andThen o (fun st => check_queue st)

/-- `write_done`: completion callback from the physical transport. -/
def write_done (s : NVState) (buffer : List Nat) (length : Nat) : Out Unit :=
  let o : Out Unit :=
    match s.current_user with
    | none => ⟨s, [], [], [], ()⟩
    | some user =>
      let s1 := { s with current_user := none }
      match user with
      | .Kernel =>
        if s1.kernel_client then
          ⟨s1, [], [], [⟨true, buffer, length⟩], ()⟩
        else
          ⟨s1, [], [], [], ()⟩
      | .HeaderManager state =>
        let s2 := { s1 with header_buffer := some buffer }
        match state with
        | .Write action =>
          let o1 := header_write_done s2 action
          match action, o1.ret with
          | .WritingRegionHeader processid _, .err e =>
            match findApp o1.st processid with
            | some _ =>
              ⟨o1.st, o1.ops,
                o1.ups ++ [⟨processid, upcall.INIT_DONE,
                  into_statuscode (.err e)⟩], o1.kevs, ()⟩
            | none => ⟨o1.st, o1.ops, o1.ups, o1.kevs, ()⟩
          | _, _ => ⟨o1.st, o1.ops, o1.ups, o1.kevs, ()⟩
        | .Read _ => ⟨s2, [], [], [], ()⟩
      | .App processid =>
        match findApp s1 processid with
        | none => ⟨s1, [], [], [], ()⟩
        | some _ =>
          let s2 := { s1 with buffer := some buffer }
          ⟨s2, [], [⟨processid, upcall.WRITE_DONE, length⟩], [], ()⟩
  Out.andThen o (fun st => check_queue st)

/-- `start_region_traversal`. -/
def start_region_traversal (s : NVState) : Out RRes :=
  let first_header_address := s.userspace_start_address + MAGIC_HEADER_LEN
  read_region_header s first_header_address

/-- `init_app`: mark the app as requesting, then traverse. -/
def init_app (s : NVState) (processid : Nat) : Out RRes :=
  match findApp s processid with
  | none => ⟨s, [], [], [], .err .FAIL⟩
  | some _ =>
    let s1 := updateApp s processid (fun e =>
      { e with app := { e.app with has_requested_region := true } })
    start_region_traversal s1

/-- `kernel read` (hil::nonvolatile_storage::NonvolatileStorage::read):
store the buffer, then enqueue. -/
def kernel_read (s : NVState) (buffer : List Nat) (address length : Nat) :
    Out RRes :=
  let s1 := { s with kernel_buffer := some buffer }
  enqueue_command s1 .KernelRead address length none

/-- `kernel write` (hil::nonvolatile_storage::NonvolatileStorage::write). -/
def kernel_write (s : NVState) (buffer : List Nat) (address length : Nat) :
    Out RRes :=
  let s1 := { s with kernel_buffer := some buffer }
  enqueue_command s1 .KernelWrite address length none

/-- `CommandReturn`. -/
inductive CommandReturn
  | success
  | successU32 (v : Nat)
  | failure (e : ErrorCode)
deriving DecidableEq, Repr

/-- `SyscallDriver::command`. -/
def command (s : NVState) (command_num offset length : Nat)
    (processid : Nat) : Out CommandReturn :=
  match command_num with
  | 0 => ⟨s, [], [], [], .success⟩
  | 1 =>
    match findApp s processid with
    | none => ⟨s, [], [], [], .failure .FAIL⟩
    | some e =>
      match e.app.region with
      | none => ⟨s, [], [], [], .failure .FAIL⟩
      | some region => ⟨s, [], [], [], .successU32 (region.length % 2 ^ 32)⟩
  | 2 =>
    let o := enqueue_command s .UserspaceRead offset length (some processid)
    { o with ret := match o.ret with | .ok => .success | .err e => .failure e }
  | 3 =>
    let o := enqueue_command s .UserspaceWrite offset length (some processid)
    { o with ret := match o.ret with | .ok => .success | .err e => .failure e }
  | 4 =>
    let o := init_app s processid
    { o with ret := match o.ret with | .ok => .success | .err e => .failure e }
  | _ => ⟨s, [], [], [], .failure .NOSUPPORT⟩


/-! ## Test fixtures -/

/-- A quiescent driver configuration used as the base of the concrete
states below: userspace span [1000, 2000), kernel span [0, 1000),
100-byte per-app regions, no app table rows, all buffers held. -/
def idleSt : NVState :=
  { apps := []
    buffer := none
    current_user := none
    userspace_start_address := 1000
    userspace_length := 1000
    kernel_start_address := 0
    kernel_length := 1000
    kernel_client := false
    kernel_pending_command := false
    kernel_command := .KernelRead
    kernel_buffer := none
    kernel_readwrite_length := 0
    kernel_readwrite_address := 0
    header_buffer := none
    app_region_size := 100
    next_unallocated_region_header_address := none }

/-- App 1 (ShortId 5, region [1012, 1112)) with a pending read of
relative offset 0, length 10 sitting in its depth-1 queue slot. -/
def c1drainSt : NVState :=
  { idleSt with
      apps := [⟨1, .Fixed 5, List.replicate 16 0, [],
        ⟨true, .UserspaceRead, 0, 10, true, some ⟨1012, 100⟩⟩⟩]
      buffer := some (List.replicate 16 0)
      next_unallocated_region_header_address := some 1112 }

/-- Same app with an idle queue slot and a free channel. -/
def c1immSt : NVState :=
  { c1drainSt with
      apps := [⟨1, .Fixed 5, List.replicate 16 0, [],
        ⟨false, .UserspaceRead, 0, 0, true, some ⟨1012, 100⟩⟩⟩] }

/-- C1: the claim that every validated read/write lands in
[region.offset + o, region.offset + o + l) fails on the code.  Draining
the pending slot issues the physical read at address 1000 (the relative
offset plus userspace_start_address, ignoring region.offset), and the
immediate path issues it at 2012 (region.offset + offset with
userspace_start_address added a second time); the assigned region is
[1012, 1112) and the claimed range is [1012, 1022). -/
theorem c1_issued_outside_region :
    ((check_queue c1drainSt).ops =
        [⟨false, List.replicate 16 0, 1000, 10⟩] ∧ 1000 + 10 ≤ 1012) ∧
    ((enqueue_command c1immSt .UserspaceRead 0 10 (some 1)).ops =
        [⟨false, List.replicate 16 0, 2012, 10⟩] ∧ 1012 + 100 ≤ 2012) := by
  decide

/-- Header traversal in flight (reading the header at 1004) while a
kernel read (address 100, length 4) waits in the kernel depth-1 slot. -/
def c2St : NVState :=
  { idleSt with
      current_user := some (.HeaderManager (.Read (.ReadingRegionHeader 1004)))
      kernel_client := true
      kernel_pending_command := true
      kernel_command := .KernelRead
      kernel_buffer := some [1, 2, 3, 4]
      kernel_readwrite_length := 4
      kernel_readwrite_address := 100
      app_region_size := 64 }

/-- Bytes of a region header owned by ShortId 7 with length 16. -/
def c2buf : List Nat := [7, 0, 0, 0, 16, 0, 0, 0]

/-- C2: the mutual-exclusion claim fails on the code.  One read_done
callback issues TWO physical operations: the header-manager continuation
issues the next header read (re-occupying the owner slot), and
check_queue then starts the queued kernel read without checking the
slot, overwriting it with Kernel while the header read is outstanding. -/
theorem c2_double_issue :
    (read_done c2St c2buf 8).ops =
      [⟨false, c2buf, 1028, 8⟩, ⟨false, [1, 2, 3, 4], 100, 4⟩] ∧
    (read_done c2St c2buf 8).st.current_user = some .Kernel ∧
    (header_read_done
        { c2St with current_user := none, header_buffer := some c2buf }
        (.ReadingRegionHeader 1004)).st.current_user =
      some (.HeaderManager (.Read (.ReadingRegionHeader 1028))) := by
  decide

/-- Waiting app 1 on a tiny userspace span [1000, 1100) with a configured
per-app size of 200 bytes; the header manager is reading the header at
1004. -/
def c5St : NVState :=
  { idleSt with
      apps := [⟨1, .Fixed 5, [], [], ⟨false, .UserspaceRead, 0, 0, true, none⟩⟩]
      current_user := some (.HeaderManager (.Read (.ReadingRegionHeader 1004)))
      userspace_length := 100
      app_region_size := 200 }

/-- C5 counterexample: when the sentinel read completes and allocation is
rejected because the candidate region [1012, 1212) exceeds the user span
[1000, 1100), the failure (ret = FAIL) is dropped: the requesting app
receives no init-complete upcall at all. -/
theorem c5_out_of_span_failure_dropped :
    (header_read_done
        { c5St with
            current_user := none
            header_buffer := some (List.replicate 8 0) }
        (.ReadingRegionHeader 1004)).ret = .err .FAIL ∧
    (read_done c5St (List.replicate 8 0) 8).ups = [] ∧
    (read_done c5St (List.replicate 8 0) 8).ops = [] := by
  decide

/-- The grant row of the locally-unique app used for C8. -/
def c8Entry : AppEntry :=
  ⟨1, .LocallyUnique, [], [], ⟨false, .UserspaceRead, 0, 0, true, none⟩⟩

/-- Waiting app with a LocallyUnique ShortId; frontier known at 1004. -/
def c8St : NVState :=
  { idleSt with
      apps := [c8Entry]
      header_buffer := some (List.replicate 8 0)
      next_unallocated_region_header_address := some 1004 }

/-- C8 counterexample: allocation for a locally-unique app is rejected
with the generic FAIL code, while the Unsupported error of the spec is
realized in this capsule as NOSUPPORT (the unknown-command return), and
FAIL is not NOSUPPORT. -/
theorem c8_rejects_with_fail_not_nosupport :
    (allocate_app_region c8St 1).ret = .err .FAIL ∧
    (command c8St 99 0 0 1).ret = .failure .NOSUPPORT ∧
    ErrorCode.FAIL ≠ ErrorCode.NOSUPPORT := by
  decide

/-- Driver with userspace span [1000, 1100). -/
def c9St : NVState :=
  { idleSt with userspace_length := 100 }

/-- C9 counterexample: the header-management access (1050, 50) ends
exactly at the end of the span ([1050, 1100) is contained in
[1000, 1100)), yet validation rejects it with INVAL because
check_header_access uses a strict end comparison. -/
theorem c9_exact_end_rejected :
    check_header_access c9St 1050 50 = .err .INVAL ∧
    1000 ≤ 1050 ∧ 1050 + 50 ≤ 1000 + 100 := by
  decide


/-- App 1 (ShortId 5) with a 4-byte region assigned, used for C3. -/
def c3Entry : AppEntry :=
  ⟨1, .Fixed 5, [], [], ⟨false, .UserspaceRead, 0, 0, true, some ⟨1012, 4⟩⟩⟩

/-- Driver state holding only `c3Entry`. -/
def c3St : NVState :=
  { idleSt with apps := [c3Entry] }

/-- C3 counterexample: with region length 4, the request (offset 4,
length 0) satisfies offset + length = region.length, which the claim
says passes validation, yet the code rejects it with INVAL because
offset is not below region.length. -/
theorem c3_zero_length_boundary_rejected :
    check_userspace_access c3St 4 0 (some 1) = .err .INVAL ∧ 4 + 0 = 4 := by
  decide

/-- C3 (amended): a userspace request is rejected with INVAL (OutOfBounds)
exactly when offset ≥ region.length or length > region.length or
offset + length > region.length; a request of length at least 1 with
offset + length = region.length passes, and offset + length =
region.length + 1 is always rejected. -/
theorem c3_userspace_bounds (s : NVState) (pid offset length : Nat)
    (e : AppEntry) (r : AppRegion)
    (hfind : findApp s pid = some e) (hreg : e.app.region = some r) :
    ((check_userspace_access s offset length (some pid) = .err .INVAL) ↔
      (offset ≥ r.length ∨ length > r.length ∨ offset + length > r.length)) ∧
    ((check_userspace_access s offset length (some pid) = .ok) ↔
      (offset < r.length ∧ length ≤ r.length ∧ offset + length ≤ r.length)) ∧
    (1 ≤ length → offset + length = r.length →
      check_userspace_access s offset length (some pid) = .ok) ∧
    (offset + length = r.length + 1 →
      check_userspace_access s offset length (some pid) = .err .INVAL) := by
  unfold check_userspace_access
  simp only [hfind, hreg]
  split <;> rename_i h <;>
    refine ⟨?_, ?_, ?_, ?_⟩ <;> intros <;> simp_all <;> omega

/-- Witness for C3: the boundary request (offset 0, length 4) on the
4-byte region of `c3St` passes validation. -/
theorem c3_userspace_bounds_witness :
    ((check_userspace_access c3St 0 4 (some 1) = .err .INVAL) ↔
      (0 ≥ (4:Nat) ∨ 4 > (4:Nat) ∨ 0 + 4 > (4:Nat))) ∧
    ((check_userspace_access c3St 0 4 (some 1) = .ok) ↔
      ((0:Nat) < 4 ∧ (4:Nat) ≤ 4 ∧ 0 + 4 ≤ (4:Nat))) ∧
    (1 ≤ (4:Nat) → 0 + 4 = (4:Nat) →
      check_userspace_access c3St 0 4 (some 1) = .ok) ∧
    (0 + 4 = (4:Nat) + 1 →
      check_userspace_access c3St 0 4 (some 1) = .err .INVAL) :=
  c3_userspace_bounds c3St 1 0 4 c3Entry ⟨1012, 4⟩ (by decide) (by decide)

/-- Parametric allocation fixture: one waiting app `pid` with fixed
ShortId `id`, frontier at `F`, per-app size `size`, userspace span
[usStart, usStart + usLen). -/
def c4Alloc (usStart usLen F size pid id : Nat) : NVState :=
  { apps := [⟨pid, .Fixed id, [], [], ⟨false, .UserspaceRead, 0, 0, true, none⟩⟩]
    buffer := none
    current_user := none
    userspace_start_address := usStart
    userspace_length := usLen
    kernel_start_address := 0
    kernel_length := 0
    kernel_client := false
    kernel_pending_command := false
    kernel_command := .KernelRead
    kernel_buffer := none
    kernel_readwrite_length := 0
    kernel_readwrite_address := 0
    header_buffer := some [0, 0, 0, 0, 0, 0, 0, 0]
    app_region_size := size
    next_unallocated_region_header_address := some F }

/-- C4: allocation placement.  (a) `allocate_app_region` writes the new
header at the frontier `F` and records the pending region
{offset = F + header_width, length = size}; (b) on completion of that
header write the region is stored on the app, the frontier advances to
F + header_width + size, a zero sentinel header is written there, and
the app gets a success (status 0) init-complete upcall; (c) for a fresh
chain, completing the magic write zeroes the sentinel immediately after
the magic marker at usStart + magic_width; (d) reading a sentinel at
address `a` records `a` as the frontier. -/
theorem c4_allocation_placement (usStart usLen F size pid id a : Nat)
    (h1 : usStart ≤ F) (h2 : 1 ≤ size) (h3 : F + 16 + size < usStart + usLen)
    (h4 : 12 < usLen) :
    (allocate_app_region (c4Alloc usStart usLen F size pid id) pid =
      ⟨{ c4Alloc usStart usLen F size pid id with
          header_buffer := none
          current_user := some (.HeaderManager (.Write
            (.WritingRegionHeader pid ⟨F + REGION_HEADER_LEN, size⟩))) },
        [⟨true, u32_to_u8_slice id ++ usize_to_u8_slice size, F,
          REGION_HEADER_LEN⟩],
        [], [], .ok⟩) ∧
    (write_done
        { c4Alloc usStart usLen F size pid id with
            header_buffer := none
            current_user := some (.HeaderManager (.Write
              (.WritingRegionHeader pid ⟨F + REGION_HEADER_LEN, size⟩))) }
        (u32_to_u8_slice id ++ usize_to_u8_slice size) REGION_HEADER_LEN =
      ⟨{ c4Alloc usStart usLen F size pid id with
          apps := [⟨pid, .Fixed id, [], [],
            ⟨false, .UserspaceRead, 0, 0, true,
              some ⟨F + REGION_HEADER_LEN, size⟩⟩⟩]
          header_buffer := none
          current_user := some (.HeaderManager (.Write (.ZeroingRegionHeader true)))
          next_unallocated_region_header_address :=
            some (F + REGION_HEADER_LEN + size) },
        [⟨true, List.replicate REGION_HEADER_LEN 0, F + REGION_HEADER_LEN + size,
          REGION_HEADER_LEN⟩],
        [⟨pid, upcall.INIT_DONE, 0⟩], [], ()⟩) ∧
    ((write_done
        { c4Alloc usStart usLen F size pid id with
            header_buffer := none
            current_user := some (.HeaderManager (.Write .WritingMagicHeader)) }
        (List.replicate 8 0) MAGIC_HEADER_LEN).ops =
      [⟨true, List.replicate REGION_HEADER_LEN 0, usStart + MAGIC_HEADER_LEN,
        REGION_HEADER_LEN⟩]) ∧
    ((header_read_done { idleSt with header_buffer := some (List.replicate 8 0) }
        (.ReadingRegionHeader a)).st.next_unallocated_region_header_address =
      some a) := by
  refine ⟨?_, ?_, ?_, ?_⟩
  · unfold allocate_app_region write_region_header enqueue_command
      check_header_access
    simp [c4Alloc, findApp, REGION_HEADER_LEN, USIZE_LEN, writeBytes,
      u32_to_u8_slice, usize_to_u8_slice]
    rw [if_neg (by omega), if_neg (by omega)]
  · have hc : (F + 8 + size < usStart ∨ usStart + usLen ≤ F + 8 + size ∨ usLen < 8 ∨
        usStart + usLen ≤ F + 8 + size + 8) = False := eq_false (by omega)
    have hdrop : List.drop 8 (List.map (fun i => id >>> (8 * i) &&& 255) (List.range 4) ++
        List.map (fun i => size >>> (8 * i) &&& 255) (List.range 4)) = ([] : List Nat) := by
      apply List.drop_eq_nil_of_le
      simp
    unfold write_done header_write_done zero_out_region_header enqueue_command
      check_header_access check_queue check_queue_apps
    simp [c4Alloc, findApp, updateApp, Out.andThen, REGION_HEADER_LEN, USIZE_LEN,
      writeBytes, u32_to_u8_slice, usize_to_u8_slice, upcall.INIT_DONE, hc, hdrop,
      check_queue_apps]
  · unfold write_done header_write_done zero_out_region_header enqueue_command
      check_header_access check_queue check_queue_apps
    simp [c4Alloc, findApp, Out.andThen, REGION_HEADER_LEN, USIZE_LEN,
      MAGIC_HEADER_LEN, writeBytes, check_queue_apps]
    rw [if_neg (by omega)]
    simp [check_queue_apps, c4Alloc, findApp, Out.andThen]
  · simp [header_read_done, idleSt, find_app_to_allocate_region,
      TERMINATING_REGION_OWNER, REGION_HEADER_LEN, USIZE_LEN,
      u8_slice_to_u32, u8_slice_to_usize, List.enum, List.enumFrom]


/-- Witness for C4 at usStart = 1000, usLen = 1000, F = 1004, size = 100,
pid = 1, id = 5, a = 1004. -/
theorem c4_allocation_placement_witness :
    (allocate_app_region (c4Alloc 1000 1000 1004 100 1 5) 1 =
      ⟨{ c4Alloc 1000 1000 1004 100 1 5 with
          header_buffer := none
          current_user := some (.HeaderManager (.Write
            (.WritingRegionHeader 1 ⟨1004 + REGION_HEADER_LEN, 100⟩))) },
        [⟨true, u32_to_u8_slice 5 ++ usize_to_u8_slice 100, 1004,
          REGION_HEADER_LEN⟩],
        [], [], .ok⟩) ∧
    (write_done
        { c4Alloc 1000 1000 1004 100 1 5 with
            header_buffer := none
            current_user := some (.HeaderManager (.Write
              (.WritingRegionHeader 1 ⟨1004 + REGION_HEADER_LEN, 100⟩))) }
        (u32_to_u8_slice 5 ++ usize_to_u8_slice 100) REGION_HEADER_LEN =
      ⟨{ c4Alloc 1000 1000 1004 100 1 5 with
          apps := [⟨1, .Fixed 5, [], [],
            ⟨false, .UserspaceRead, 0, 0, true,
              some ⟨1004 + REGION_HEADER_LEN, 100⟩⟩⟩]
          header_buffer := none
          current_user := some (.HeaderManager (.Write (.ZeroingRegionHeader true)))
          next_unallocated_region_header_address :=
            some (1004 + REGION_HEADER_LEN + 100) },
        [⟨true, List.replicate REGION_HEADER_LEN 0, 1004 + REGION_HEADER_LEN + 100,
          REGION_HEADER_LEN⟩],
        [⟨1, upcall.INIT_DONE, 0⟩], [], ()⟩) ∧
    ((write_done
        { c4Alloc 1000 1000 1004 100 1 5 with
            header_buffer := none
            current_user := some (.HeaderManager (.Write .WritingMagicHeader)) }
        (List.replicate 8 0) MAGIC_HEADER_LEN).ops =
      [⟨true, List.replicate REGION_HEADER_LEN 0, 1000 + MAGIC_HEADER_LEN,
        REGION_HEADER_LEN⟩]) ∧
    ((header_read_done { idleSt with header_buffer := some (List.replicate 8 0) }
        (.ReadingRegionHeader 1004)).st.next_unallocated_region_header_address =
      some 1004) :=
  c4_allocation_placement 1000 1000 1004 100 1 5 1004
    (by decide) (by decide) (by decide) (by decide)

/-- C5 (amended): for every driver state whose in-flight operation is
the region-header write for app `pid` (action WritingRegionHeader), if
the completion continuation `header_write_done` fails with any error
`e` - this covers every failure of that step, including failures
enqueueing the sentinel-zeroing write - then `write_done` schedules the
init-complete upcall to `pid` carrying the failing status
`into_statuscode (err e)`, placed right after the continuation's own
upcalls and before the queue drainer's.  Failures raised on the
read-dispatch path of the allocation chain are dropped instead (see the
counterexample). -/
theorem c5_write_completion_failure_reported (s : NVState) (buffer : List Nat)
    (length pid : Nat) (r : AppRegion) (e : ErrorCode) (en : AppEntry)
    (hcu : s.current_user =
      some (.HeaderManager (.Write (.WritingRegionHeader pid r))))
    (hfail : (header_write_done
        { s with current_user := none, header_buffer := some buffer }
        (.WritingRegionHeader pid r)).ret = .err e)
    (hfind : findApp (header_write_done
        { s with current_user := none, header_buffer := some buffer }
        (.WritingRegionHeader pid r)).st pid = some en) :
    (write_done s buffer length).ups =
      ((header_write_done
          { s with current_user := none, header_buffer := some buffer }
          (.WritingRegionHeader pid r)).ups
        ++ [⟨pid, upcall.INIT_DONE, into_statuscode (.err e)⟩])
      ++ (check_queue (header_write_done
          { s with current_user := none, header_buffer := some buffer }
          (.WritingRegionHeader pid r)).st).ups := by
  unfold write_done
  rw [hcu]
  simp only [Out.andThen]
  simp at hfail hfind ⊢
  simp [hfail, hfind]

/-- Witness state for C5: the in-flight region-header write is for app 1
with region [1012, 1096) on the span [1000, 1100); completing it
advances the frontier to 1096, where enqueueing the 8-byte
sentinel-zeroing write fails validation (it would end at 1104, past the
span end), so the continuation fails with INVAL - a sentinel-zeroing
failure whose status is not FAIL. -/
def c5wSt : NVState :=
  { idleSt with
      apps := [⟨1, .Fixed 5, [], [], ⟨false, .UserspaceRead, 0, 0, true, none⟩⟩]
      current_user :=
        some (.HeaderManager (.Write (.WritingRegionHeader 1 ⟨1012, 84⟩)))
      userspace_length := 100
      app_region_size := 84
      next_unallocated_region_header_address := some 1004 }

/-- Witness for C5 on `c5wSt`: the sentinel-zeroing enqueue failure
(INVAL) is delivered to app 1 as init-complete with status 6. -/
theorem c5_write_completion_failure_reported_witness :
    ((write_done c5wSt (List.replicate 8 0) 8).ups =
      ((header_write_done
          { c5wSt with
              current_user := none
              header_buffer := some (List.replicate 8 0) }
          (.WritingRegionHeader 1 ⟨1012, 84⟩)).ups
        ++ [⟨1, upcall.INIT_DONE, into_statuscode (.err .INVAL)⟩])
      ++ (check_queue (header_write_done
          { c5wSt with
              current_user := none
              header_buffer := some (List.replicate 8 0) }
          (.WritingRegionHeader 1 ⟨1012, 84⟩)).st).ups) ∧
    (write_done c5wSt (List.replicate 8 0) 8).ups =
      [⟨1, upcall.INIT_DONE, ErrorCode.INVAL.toNat⟩] :=
  ⟨c5_write_completion_failure_reported c5wSt (List.replicate 8 0) 8 1
      ⟨1012, 84⟩ .INVAL
      ⟨1, .Fixed 5, [], [],
        ⟨false, .UserspaceRead, 0, 0, true, some ⟨1012, 84⟩⟩⟩
      (by decide) (by decide) (by decide),
    by decide⟩

/-- Busy channel (kernel owns it), kernel request already queued with its
buffer stored, and app 1 with a pending read in its slot. -/
def c6St : NVState :=
  { idleSt with
      apps := [⟨1, .Fixed 5, List.replicate 16 0, [],
        ⟨true, .UserspaceRead, 0, 10, true, some ⟨1012, 100⟩⟩⟩]
      buffer := some (List.replicate 16 0)
      current_user := some .Kernel
      kernel_client := true
      kernel_pending_command := true
      kernel_command := .KernelRead
      kernel_buffer := some [9, 9, 9, 9]
      kernel_readwrite_length := 4
      kernel_readwrite_address := 0
      header_buffer := some (List.replicate 8 0)
      next_unallocated_region_header_address := some 1112 }

/-- C6: a second kernel read issued while the first kernel request is
still queued returns NOMEM (queue full) but is not state-preserving:
the stored kernel buffer is replaced and then dropped, leaving the
kernel buffer slot empty with the pending flag still set; the queue
drainer then starts nothing and changes nothing (the pending kernel
request and the pending app request are both stuck). -/
theorem c6_kernel_double_request_breaks_queue (buf : List Nat) (addr len : Nat)
    (h1 : addr < 1000) (h2 : addr + len ≤ 1000) (h3 : len ≤ 1000) :
    kernel_read c6St buf addr len =
      ⟨{ c6St with kernel_buffer := none }, [], [], [], .err .NOMEM⟩ ∧
    check_queue { c6St with kernel_buffer := none, current_user := none } =
      ⟨{ c6St with kernel_buffer := none, current_user := none },
        [], [], [], ()⟩ := by
  constructor
  · unfold kernel_read enqueue_command check_kernel_access
    simp only [c6St, idleSt]
    rw [if_neg (by omega)]
    simp
  · simp [check_queue, c6St, idleSt]

/-- Witness for C6: second kernel read of (address 0, length 2). -/
theorem c6_kernel_double_request_breaks_queue_witness :
    kernel_read c6St [1, 2] 0 2 =
      ⟨{ c6St with kernel_buffer := none }, [], [], [], .err .NOMEM⟩ ∧
    check_queue { c6St with kernel_buffer := none, current_user := none } =
      ⟨{ c6St with kernel_buffer := none, current_user := none },
        [], [], [], ()⟩ :=
  c6_kernel_double_request_breaks_queue [1, 2] 0 2
    (by decide) (by decide) (by decide)

/-- C7: syscall command 1 returns success carrying the region length when
the caller has an assigned region, and the FAIL error code (the code
realization of the NotReady rejection of the spec) when it has none;
neither case has side effects. -/
theorem c7_command_one (s : NVState) (pid offset length : Nat) (e : AppEntry)
    (hfind : findApp s pid = some e) :
    (e.app.region = none →
      command s 1 offset length pid = ⟨s, [], [], [], .failure .FAIL⟩) ∧
    (∀ r : AppRegion, e.app.region = some r → r.length < 2 ^ 32 →
      command s 1 offset length pid = ⟨s, [], [], [], .successU32 r.length⟩) := by
  constructor
  · intro h
    simp [command, hfind, h]
  · intro r h hlt
    have hlt2 : r.length < 4294967296 := by omega
    simp [command, hfind, h, Nat.mod_eq_of_lt hlt2]

/-- App 1 (ShortId 5) with a 100-byte region, used for the C7 witness. -/
def c7Entry : AppEntry :=
  ⟨1, .Fixed 5, [], [], ⟨false, .UserspaceRead, 0, 0, true, some ⟨1012, 100⟩⟩⟩

/-- Driver state holding only `c7Entry`. -/
def c7St : NVState :=
  { idleSt with apps := [c7Entry] }

/-- Witness for C7 on `c7St`. -/
theorem c7_command_one_witness :
    (c7Entry.app.region = none →
      command c7St 1 0 0 1 = ⟨c7St, [], [], [], .failure .FAIL⟩) ∧
    (∀ r : AppRegion, c7Entry.app.region = some r → r.length < 2 ^ 32 →
      command c7St 1 0 0 1 = ⟨c7St, [], [], [], .successU32 r.length⟩) :=
  c7_command_one c7St 1 0 0 c7Entry (by decide)

/-- C8 (amended): region allocation for an app whose ShortId is of the
locally-unique kind is rejected with the generic FAIL code (not
NOSUPPORT), with no effects and no state change. -/
theorem c8_locally_unique_rejected (s : NVState) (pid F : Nat) (e : AppEntry)
    (hfind : findApp s pid = some e) (hsid : e.shortid = .LocallyUnique)
    (hfront : s.next_unallocated_region_header_address = some F) :
    allocate_app_region s pid = ⟨s, [], [], [], .err .FAIL⟩ := by
  simp [allocate_app_region, hfront, hfind, hsid]

/-- Witness for C8 on `c8St`. -/
theorem c8_locally_unique_rejected_witness :
    allocate_app_region c8St 1 = ⟨c8St, [], [], [], .err .FAIL⟩ :=
  c8_locally_unique_rejected c8St 1 1004 c8Entry
    (by decide) (by decide) (by decide)

/-- C9 (amended): a header-management access (offset, length) passes
validation iff offset is at or after user_start and offset + length is
strictly before user_start + user_length; in particular an access ending
exactly at the end of the span is rejected. -/
theorem c9_header_access_strict_end (s : NVState) (offset length : Nat) :
    check_header_access s offset length = .ok ↔
      s.userspace_start_address ≤ offset ∧
      offset + length < s.userspace_start_address + s.userspace_length := by
  unfold check_header_access
  split <;> rename_i h
  · simp only [reduceCtorEq, false_iff]
    omega
  · simp only [true_iff]
    omega

/-- C10: a second read issued by an app while its first request is still
in its depth-1 slot (channel busy) is rejected with NOMEM (QueueFull),
and the driver state, the event lists, and every app record are exactly
unchanged. -/
theorem c10_double_busy (s : NVState) (pid offset length : Nat)
    (e : AppEntry) (r : AppRegion) (u : NonvolatileUser) (b : List Nat)
    (hfind : findApp s pid = some e) (hreg : e.app.region = some r)
    (h1 : offset < r.length) (h2 : length ≤ r.length)
    (h3 : offset + length ≤ r.length)
    (hallow : e.allow_read.length ≠ 0) (hbuf : s.buffer = some b)
    (hcu : s.current_user = some u) (hpend : e.app.pending_command = true) :
    enqueue_command s .UserspaceRead offset length (some pid) =
      ⟨s, [], [], [], .err .NOMEM⟩ := by
  unfold enqueue_command check_userspace_access
  simp only [hfind, hreg, hbuf, hcu, hpend]
  rw [if_neg (by omega)]
  simp [hallow, hpend]

/-- App 1 with a pending read and a 100-byte region, for the C10 witness. -/
def c10Entry : AppEntry :=
  ⟨1, .Fixed 5, List.replicate 16 0, [],
    ⟨true, .UserspaceRead, 0, 10, true, some ⟨1012, 100⟩⟩⟩

/-- Busy driver (kernel owns the channel) holding only `c10Entry`. -/
def c10St : NVState :=
  { idleSt with
      apps := [c10Entry]
      buffer := some (List.replicate 16 0)
      current_user := some .Kernel }

/-- Witness for C10: a second read (offset 0, length 10) on `c10St`. -/
theorem c10_double_busy_witness :
    enqueue_command c10St .UserspaceRead 0 10 (some 1) =
      ⟨c10St, [], [], [], .err .NOMEM⟩ :=
  c10_double_busy c10St 1 0 10 c10Entry ⟨1012, 100⟩ .Kernel
    (List.replicate 16 0) (by decide) (by decide) (by decide) (by decide)
    (by decide) (by decide) (by decide) (by decide) (by decide)

end Nvs
